import Mathlib

/-!
Verification of the Akash deployer server (`server.js`): a shallow embedding
of its admission gate, durable queue, job orchestrator, HTTP handlers and
queue worker, together with theorems settling the specification claims.

External effects (process spawns, HTTP probes, Redis round-trips, timers)
are represented by an explicit `Effect` trace; the outcomes of external
calls (probe responses, CLI outputs, store availability) are inputs packed
into an `Env` record, so every function here is the pure transition the
JavaScript code computes once those outcomes are fixed.
-/

namespace AkashDeployer

/-- Outcome of the busy-probe `fetch` in `gpuAvailable` (server.js 84-91):
`err` covers a network failure or a body whose `.json()` decoding throws;
`ok status` is a decoded JSON body whose `status` field is `status`
(`none` when the field is missing or the body is not an object). -/
inductive ProbeOutcome
  | err : ProbeOutcome
  | ok (status : Option String) : ProbeOutcome
deriving DecidableEq, Repr

/-- A job request body (server.js 240): `product`, `minutes` (default 60),
and the customer e-mail, with `""` standing for a missing/falsy
`customer.email` (the code only ever tests its truthiness). The opaque
`payment` record is carried by the code but never inspected, so it is
omitted. -/
structure Job where
  product : String
  minutes : Nat := 60
  email : String := ""
deriving DecidableEq, Repr

/-- The record `enqueue` stores (server.js 252):
the request fields plus `at: Date.now()` and the idempotency key. -/
structure QueuedJob where
  job : Job
  enqueuedAt : Nat := 0
  idem : Option String := none
deriving DecidableEq, Repr

/-- One stored queue entry as `dequeue` sees it after `JSON.parse`
(server.js 44-46): `some j` is an entry that parses back to a job record,
`none` is a malformed entry (empty string or invalid JSON, whose parse
throws and is caught, yielding `null`). -/
abbrev Stored := Option QueuedJob

/-- A lease id as extracted by `(j.leases || []).map(x => x.lease?.id)`
(server.js 154); `owner` and `dseq` also exist on the wire but the code
only reads `provider`, `gseq`, `oseq` after filtering. -/
structure LeaseId where
  provider : String
  gseq : Nat
  oseq : Nat
deriving DecidableEq, Repr

/-- What one iteration of the lease-list poll observes (server.js 147-156):
`none` when `JSON.parse(out)` throws (including the `.catch(()=> "")`
empty-output case); `some ids` is the mapped `x.lease?.id` list, where an
element `none` is an entry without a `lease.id`. -/
abbrev LeaseAttempt := Option (List (Option LeaseId))

/-- What one iteration of the lease-status poll observes (server.js
174-184): `none` when parsing throws or no first service exists;
`some uris` is the first service's `uris` array (possibly empty). -/
abbrev UriAttempt := Option (List String)

/-- Configuration flags and the outcomes of every external call a single
request/tick can make, fixed up front. Field names follow the source's
environment variables and call sites. -/
structure Env where
  DRY_RUN : Bool := false
  DISABLE_BUSY_CHECK : Bool := false
  BUSY_CHECK : String := ""
  ENABLE_QUEUE : Bool := false
  hasRedis : Bool := false
  NOTIFY_URL : String := ""
  PROVIDER : Option String := none
  now : Nat := 0
  probe : ProbeOutcome := ProbeOutcome.err
  keysShowFirst : Except String String := Except.ok "akash1owner"
  MNEMONIC : Option String := none
  keysRecover : Except String Unit := Except.ok ()
  keysShowSecond : Except String String := Except.ok "akash1owner"
  readSdl : Except String String := Except.ok ""
  deployCreate : Except String Unit := Except.ok ()
  leaseAttempts : List LeaseAttempt := []
  sendManifest : Except String Unit := Except.ok ()
  uriAttempts : List UriAttempt := []

/-- External side effects, in program order. `spawn` is one Command
Executor invocation (`sh`/`execFile`), `probe` the busy-check `fetch`,
`redis` one queue-store round-trip, `notify` the webhook POST,
`scheduleTeardown` the `setTimeout` registration, `log` a console line. -/
inductive Effect
  | spawn (cmd : String)
  | probe
  | redis (op : String)
  | writeFile (path content : String)
  | notify (email uri : String)
  | scheduleTeardown (delayMs : Nat)
  | log (msg : String)
deriving DecidableEq, Repr

/-- server.js 82-92: `gpuAvailable`. If the busy check is disabled or no
probe URL is configured, available; otherwise available iff the decoded
body's `status` field is the literal string `available`; a probe error is
caught and reported as unavailable (fail-closed). -/
def gpuAvailable (env : Env) : Bool :=
  if env.DISABLE_BUSY_CHECK || env.BUSY_CHECK = "" then true
  else
    match env.probe with
    | ProbeOutcome.ok s => s = some "available"
    | ProbeOutcome.err => false

/-- The effects `gpuAvailable` performs: one uncached GET unless it
short-circuits on the disable flag / missing URL (server.js 83-85). -/
def probeEffects (env : Env) : List Effect :=
  if env.DISABLE_BUSY_CHECK || env.BUSY_CHECK = "" then [] else [Effect.probe]

/-- server.js 37-41: `enqueue` throws `queue_not_configured` without a
store, else RPUSHes the stringified record and returns the new LLEN. -/
def enqueue (env : Env) (queue : List Stored) (job : Job) (idem : Option String) :
    Except String (List Stored × Nat) :=
  if env.hasRedis then
    let q := queue ++ [some { job := job, enqueuedAt := env.now, idem := idem }]
    Except.ok (q, q.length)
  else Except.error "queue_not_configured"

/-- server.js 42-47: `dequeue` LPOPs the head and JSON-parses it; with no
store, or an empty queue, it yields nothing; a malformed head has already
been removed by the pop and parses to `none`. -/
def dequeue (env : Env) (queue : List Stored) : Option QueuedJob × List Stored :=
  if env.hasRedis then
    match queue with
    | [] => (none, [])
    | raw :: rest => (raw, rest)
  else (none, queue)

/-- server.js 230-235: the queue-clear handler. Responds 401 unless a
non-empty token is configured and the supplied header strictly equals it;
on success DELs the key (a no-op without a store) and responds 200. -/
def adminQueueClear (ADMIN_TOKEN : String) (t : Option String) (hasRedis : Bool)
    (queue : List Stored) : Nat × List Stored :=
  if ADMIN_TOKEN = "" ∨ t ≠ some ADMIN_TOKEN then (401, queue)
  else (200, if hasRedis then [] else queue)

/-- server.js 122: the dry-run placeholder URI. -/
def dryRunUri (product : String) (now : Nat) : String :=
  "https://demo.indianode.com/job/" ++ product ++ "-" ++ toString (now % 1000000)

/-- server.js 105-117: `notifyLive` is a no-op when no notify URL, no
e-mail or no URI is present, else one webhook POST with errors swallowed. -/
def notifyLive (env : Env) (email uri : String) : List Effect :=
  if env.NOTIFY_URL = "" ∨ email = "" ∨ uri = "" then []
  else [Effect.notify email uri]

def keysShowCmd : String := "akash keys show"
def keysRecoverCmd : String := "bash -lc akash keys add --recover"
def deployCreateCmd : String := "akash tx deployment create"
def leaseListCmd : String := "akash query market lease list"
def sendManifestCmd : String := "akash provider send-manifest"
def leaseStatusCmd : String := "akash provider lease-status"
def deployCloseCmd : String := "akash tx deployment close"

/-- server.js 69-79: `ensureAkashKey` tries `keys show`; on failure it
throws if no mnemonic is configured, otherwise recovers the key and shows
it again. Outcomes of the three underlying commands come from `Env`. -/
def ensureAkashKey (env : Env) : Except String String × List Effect :=
  match env.keysShowFirst with
  | Except.ok addr => (Except.ok addr.trim, [Effect.spawn keysShowCmd])
  | Except.error _ =>
    match env.MNEMONIC with
    | none => (Except.error "AKASH_MNEMONIC missing and key not found",
               [Effect.spawn keysShowCmd])
    | some _ =>
      match env.keysRecover with
      | Except.error e => (Except.error e,
          [Effect.spawn keysShowCmd, Effect.spawn keysRecoverCmd])
      | Except.ok _ =>
        match env.keysShowSecond with
        | Except.ok addr => (Except.ok addr.trim,
            [Effect.spawn keysShowCmd, Effect.spawn keysRecoverCmd, Effect.spawn keysShowCmd])
        | Except.error e => (Except.error e,
            [Effect.spawn keysShowCmd, Effect.spawn keysRecoverCmd, Effect.spawn keysShowCmd])

/-- server.js 94-99: the product-to-SDL-file table inside `sdlFor`. -/
def sdlFileFor (product : String) : Option String :=
  if product = "whisper" then some "whisper.yaml"
  else if product = "sd" then some "stable-diffusion.yaml"
  else if product = "llama" then some "llama.yaml"
  else none

/-- server.js 94-101: `sdlFor` throws `invalid_product` off the table,
else reads the SDL file (outcome supplied by `Env.readSdl`). -/
def sdlFor (env : Env) (product : String) : Except String String :=
  match sdlFileFor product with
  | none => Except.error "invalid_product"
  | some _ => env.readSdl

/-- server.js 154: `.find(id => id?.provider === PROVIDER)` — the first
mapped lease id that exists and belongs to the configured provider. -/
def findMatching (prov : String) : List (Option LeaseId) → Option LeaseId
  | [] => none
  | o :: rest =>
    match o with
    | some l => if l.provider = prov then some l else findMatching prov rest
    | none => findMatching prov rest

/-- One lease-poll iteration's yield: nothing on a parse failure, else the
first matching lease id (server.js 152-156). -/
def attemptLease (prov : String) (a : LeaseAttempt) : Option LeaseId :=
  match a with
  | none => none
  | some ids => findMatching prov ids

/-- server.js 146-158: the lease poll, iterations `i, i+1, ...` with `n`
attempts left; returns the lease found (if any) and how many attempts were
consumed (each consumed attempt is one `lease list` query spawn). -/
def leaseScanFrom (prov : String) (f : Nat → LeaseAttempt) (i : Nat) :
    Nat → Option LeaseId × Nat
  | 0 => (none, 0)
  | n + 1 =>
    match attemptLease prov (f i) with
    | some l => (some l, 1)
    | none =>
      let r := leaseScanFrom prov f (i + 1) n
      (r.1, r.2 + 1)

/-- server.js 146: `for (let i=0;i<30;i++)` — the lease poll budget. -/
def leaseMaxAttempts : Nat := 30

/-- server.js 157 and 185: `await wait(4000)` — the fixed poll interval. -/
def pollWaitMs : Nat := 4000

/-- The full 30-attempt lease poll of server.js 145-158. -/
def leaseScan (prov : String) (f : Nat → LeaseAttempt) : Option LeaseId × Nat :=
  leaseScanFrom prov f 0 leaseMaxAttempts

/-- Attempt `i` of the lease poll under `env`: entries beyond the supplied
list behave like parse failures (the query keeps being issued and keeps
matching nothing). -/
def leaseAttemptAt (env : Env) (i : Nat) : LeaseAttempt :=
  (env.leaseAttempts[i]?).getD none

/-- server.js 173-186: the URI poll, same shape as the lease poll; an
attempt succeeds when the first service reports a non-empty `uris` array,
and its first element is taken. -/
def uriScanFrom (f : Nat → UriAttempt) (i : Nat) : Nat → String × Nat
  | 0 => ("", 0)
  | n + 1 =>
    match f i with
    | some (u :: _) => (u, 1)
    | _ =>
      let r := uriScanFrom f (i + 1) n
      (r.1, r.2 + 1)

/-- server.js 173: `for (let i=0;i<45;i++)` — the URI poll budget. -/
def uriMaxAttempts : Nat := 45

/-- The full 45-attempt URI poll of server.js 172-186; `""` is the
`let uri = ""` that survives exhaustion. -/
def uriScan (f : Nat → UriAttempt) : String × Nat :=
  uriScanFrom f 0 uriMaxAttempts

/-- Attempt `i` of the URI poll under `env`. -/
def uriAttemptAt (env : Env) (i : Nat) : UriAttempt :=
  (env.uriAttempts[i]?).getD none

/-- The success payload of `runJob` (server.js 125 and 207). -/
structure RunResult where
  status : String
  uri : String
  dry_run : Bool := false
  dseq : Option String := none
  gseq : Option Nat := none
  oseq : Option Nat := none
  provider : Option String := none
deriving DecidableEq, Repr

/-- server.js 195-205: the delayed auto-close callback. It spawns the
close transaction; success logs `closed_deployment`, failure is caught and
logs `close_failed` — it returns nothing and can reject nothing. -/
def autoCloseCallback (closeOk : Bool) : List Effect :=
  if closeOk then [Effect.spawn deployCloseCmd, Effect.log "closed_deployment"]
  else [Effect.spawn deployCloseCmd, Effect.log "close_failed"]

/-- server.js 120-208: `runJob`. Dry-run short-circuit; then provider
check, key resolution, SDL render + write, deployment create, bounded
lease poll (throwing `no_lease_from_provider` on exhaustion), manifest
send, bounded best-effort URI poll, conditional notify, and the one
`setTimeout` teardown at `max(1, minutes) * 60 * 1000` ms. Returns the
result (or thrown error) together with the effect trace. -/
def runJob (env : Env) (job : Job) : Except String RunResult × List Effect :=
  if env.DRY_RUN then
    let uri := dryRunUri job.product env.now
    (Except.ok { status := "ok", uri := uri, dry_run := true },
     [Effect.log "dry_run_accept"] ++
       (if job.email ≠ "" then notifyLive env job.email uri else []))
  else
    match env.PROVIDER with
    | none => (Except.error "PROVIDER_ADDR not set", [])
    | some prov =>
      match ensureAkashKey env with
      | (Except.error e, effs) => (Except.error e, effs)
      | (Except.ok _owner, keyEffs) =>
        let dseq := toString (env.now / 1000)
        match sdlFor env job.product with
        | Except.error e => (Except.error e, keyEffs)
        | Except.ok raw =>
          let sdlPath := "/tmp/" ++ dseq ++ ".yaml"
          let effs1 := keyEffs ++
            [Effect.writeFile sdlPath (raw.replace "PROVIDER_ADDR_REPLACE_ME" prov)]
          match env.deployCreate with
          | Except.error e => (Except.error e, effs1 ++ [Effect.spawn deployCreateCmd])
          | Except.ok _ =>
            let effs2 := effs1 ++ [Effect.spawn deployCreateCmd]
            let ls := leaseScan prov (leaseAttemptAt env)
            let effs3 := effs2 ++ List.replicate ls.2 (Effect.spawn leaseListCmd)
            match ls.1 with
            | none => (Except.error "no_lease_from_provider", effs3)
            | some l =>
              match env.sendManifest with
              | Except.error e => (Except.error e, effs3 ++ [Effect.spawn sendManifestCmd])
              | Except.ok _ =>
                let effs4 := effs3 ++ [Effect.spawn sendManifestCmd]
                let us := uriScan (uriAttemptAt env)
                let uri := us.1
                let effs5 := effs4 ++ List.replicate us.2 (Effect.spawn leaseStatusCmd)
                let effs6 := effs5 ++ (if uri = "" then [Effect.log "no_uri_yet"] else [])
                let effs7 := effs6 ++
                  (if uri ≠ "" ∧ job.email ≠ "" then notifyLive env job.email uri else [])
                let effs8 := effs7 ++
                  [Effect.scheduleTeardown ((Nat.max 1 job.minutes) * 60 * 1000)]
                (Except.ok { status := "ok", uri := uri, dseq := some dseq,
                             gseq := some l.gseq, oseq := some l.oseq,
                             provider := some l.provider }, effs8)

/-- The responses the `POST /` and admin handlers can produce (server.js
238-271 and 230-235); `respCode` gives the HTTP status of each. -/
inductive Resp
  | okResp (r : RunResult) (idem : Option String)
  | queued (position : Nat)
  | invalidProduct
  | busy
  | serverError (msg : String)
  | queueUnavailable (msg : String)
deriving DecidableEq, Repr

/-- HTTP status code of each response shape (server.js 244, 254, 257,
260, 266, 269). -/
def respCode : Resp → Nat
  | Resp.okResp _ _ => 200
  | Resp.queued _ => 200
  | Resp.invalidProduct => 400
  | Resp.busy => 409
  | Resp.serverError _ => 500
  | Resp.queueUnavailable _ => 503

/-- server.js 242: the allowed-product set. -/
def ALLOWED : List String := ["whisper", "sd", "llama"]

/-- server.js 238-271: the `POST /` handler. Product validation first
(before any external call); then the admission probe; busy + queueing
enabled goes through `enqueue` (503 on its failure), busy + queueing
disabled is 409; available runs the job inline, 500 on a thrown error.
Returns the response, the updated queue store, and the effect trace. -/
def handlePost (env : Env) (req : Job) (idem : Option String) (queue : List Stored) :
    Resp × List Stored × List Effect :=
  if ¬ ALLOWED.contains req.product then (Resp.invalidProduct, queue, [])
  else if ¬ gpuAvailable env then
    if env.ENABLE_QUEUE then
      match enqueue env queue req idem with
      | Except.ok (q, position) =>
        (Resp.queued position, q,
         probeEffects env ++ [Effect.redis "rpush", Effect.redis "llen", Effect.log "queued_job"])
      | Except.error e =>
        (Resp.queueUnavailable e, queue, probeEffects env ++ [Effect.log "queue_error"])
    else (Resp.busy, queue, probeEffects env)
  else
    match runJob env req with
    | (Except.ok r, effs) => (Resp.okResp r idem, queue, probeEffects env ++ effs)
    | (Except.error e, effs) =>
      (Resp.serverError e, queue, probeEffects env ++ effs ++ [Effect.log "deploy_error"])

/-- The effects one `dequeue` performs: an LPOP when a store exists. -/
def dequeueEffects (env : Env) : List Effect :=
  if env.hasRedis then [Effect.redis "lpop"] else []

/-- Result of one sequential worker tick: the queue store afterwards, the
job it drove through `runJob` (if any), the in-flight flag afterwards, and
the effect trace. -/
structure TickResult where
  queue : List Stored
  ran : Option QueuedJob
  inFlight : Bool
  effects : List Effect
deriving Repr

/-- server.js 275-293: one `processQueueOnce` tick run to completion with
no interleaving — no-op if queueing is disabled, a job is in flight, or
the gate is busy; otherwise pop one entry and, if it parsed, run it,
releasing the flag in the `finally` whatever the outcome. -/
def processQueueOnce (env : Env) (inFlight : Bool) (queue : List Stored) : TickResult :=
  if ¬ env.ENABLE_QUEUE then ⟨queue, none, inFlight, []⟩
  else if inFlight then ⟨queue, none, inFlight, []⟩
  else if ¬ gpuAvailable env then ⟨queue, none, inFlight, probeEffects env⟩
  else
    let d := dequeue env queue
    match d.1 with
    | none => ⟨d.2, none, inFlight, probeEffects env ++ dequeueEffects env⟩
    | some j =>
      let r := runJob env j.job
      let doneLog := match r.1 with
        | Except.ok _ => Effect.log "dequeue_done"
        | Except.error _ => Effect.log "queue_run_error"
      ⟨d.2, some j, false,
       probeEffects env ++ dequeueEffects env ++ [Effect.log "dequeue_start"] ++ r.2 ++ [doneLog]⟩

/-!
Interleaved model of the queue worker, for the single-flight claim.

`processQueueOnce` is an `async` function whose suspension points are its
`await`s; `setInterval` can start a new tick while an earlier one is
suspended. One tick therefore decomposes into the atomic segments between
awaits:

* `s0` (server.js 276-278): the synchronous `ENABLE_QUEUE` and `inFlight`
  checks, then suspend on `await gpuAvailable()`;
* `s1` (server.js 278-280): test the probe result, then `await dequeue()`
  — the pop takes effect across this await;
* `s2` (server.js 281-286): test the popped value; if a job, set
  `inFlight = true` and suspend on `await runJob(...)` (the run is now in
  progress);
* `s3` (server.js 288-292): the run settles; the `finally` clears
  `inFlight`.

No segment re-checks `inFlight` after `s0`.
-/

/-- Program counter of one in-progress tick: the next segment to run. -/
inductive Seg
  | s0
  | s1
  | s2
  | s3
  | done
deriving DecidableEq, Repr

/-- One tick's local state: its program counter and, once `s1` ran, the
value its `await dequeue()` produced. -/
structure TickSt where
  pc : Seg := Seg.s0
  popped : Option QueuedJob := none
deriving DecidableEq, Repr

/-- Global worker state: the shared `inFlight` flag (server.js 274), the
queue store, the number of `runJob` calls currently in progress, and two
tick instances fired by `setInterval`. -/
structure Sys where
  inFlight : Bool := false
  queue : List Stored := []
  running : Nat := 0
  t0 : TickSt := {}
  t1 : TickSt := {}
deriving DecidableEq, Repr

/-- Advance one tick by one atomic segment, given the shared state; yields
the new shared state and tick state. -/
def tickStep (env : Env) (inFlight : Bool) (queue : List Stored) (running : Nat)
    (t : TickSt) : Bool × List Stored × Nat × TickSt :=
  match t.pc with
  | Seg.s0 =>
    if ¬ env.ENABLE_QUEUE ∨ inFlight then (inFlight, queue, running, { t with pc := Seg.done })
    else (inFlight, queue, running, { t with pc := Seg.s1 })
  | Seg.s1 =>
    if ¬ gpuAvailable env then (inFlight, queue, running, { t with pc := Seg.done })
    else
      let d := dequeue env queue
      (inFlight, d.2, running, { pc := Seg.s2, popped := d.1 })
  | Seg.s2 =>
    match t.popped with
    | none => (inFlight, queue, running, { t with pc := Seg.done })
    | some _ => (true, queue, running + 1, { t with pc := Seg.s3 })
  | Seg.s3 => (false, queue, running - 1, { t with pc := Seg.done })
  | Seg.done => (inFlight, queue, running, t)

/-- Run one scheduler step: `false` advances tick 0, `true` tick 1. -/
def sysStep (env : Env) (s : Sys) (i : Bool) : Sys :=
  if i then
    let r := tickStep env s.inFlight s.queue s.running s.t1
    { inFlight := r.1, queue := r.2.1, running := r.2.2.1, t0 := s.t0, t1 := r.2.2.2 }
  else
    let r := tickStep env s.inFlight s.queue s.running s.t0
    { inFlight := r.1, queue := r.2.1, running := r.2.2.1, t0 := r.2.2.2, t1 := s.t1 }

/-- Run a whole schedule (a list of tick choices) from a state. -/
def runSched (env : Env) (s : Sys) : List Bool → Sys
  | [] => s
  | i :: rest => runSched env (sysStep env s i) rest

/-- Recogniser for `scheduleTeardown` effects. -/
def isTeardown : Effect → Bool
  | Effect.scheduleTeardown _ => true
  | _ => false

/-! Concrete inputs used by the witness and counterexample theorems. -/

/-- A valid request: `whisper` for 30 minutes. -/
def jobW : Job := { product := "whisper", minutes := 30 }

/-- Dry-run configuration. -/
def envDry : Env := { DRY_RUN := true }

/-- Busy check enabled against a probe that errors. -/
def envProbeErr : Env := { BUSY_CHECK := "https://probe", probe := ProbeOutcome.err }

/-- Busy gate failing, queueing enabled, store configured. -/
def envBusyQ : Env :=
  { BUSY_CHECK := "https://probe", probe := ProbeOutcome.err,
    ENABLE_QUEUE := true, hasRedis := true }

/-- Live run whose 30 lease-poll attempts all come back unparseable. -/
def envNoLease : Env := { PROVIDER := some "p1", readSdl := Except.ok "sdl" }

/-- The lease the configured provider `p1` answers with. -/
def leaseW : LeaseId := { provider := "p1", gseq := 1, oseq := 1 }

/-- Live run that finds `leaseW` on the first poll and never finds a URI. -/
def envRun : Env :=
  { PROVIDER := some "p1", readSdl := Except.ok "sdl",
    leaseAttempts := [some [some leaseW]] }

/-- Worker configuration: queueing on, store on, busy check disabled. -/
def envWorker : Env :=
  { ENABLE_QUEUE := true, hasRedis := true, DISABLE_BUSY_CHECK := true, DRY_RUN := true }

/-- Two well-formed queued jobs for the interleaving counterexample. -/
def qjA : QueuedJob := { job := { product := "whisper" } }

/-- Second queued job. -/
def qjB : QueuedJob := { job := { product := "sd" } }

/-- Initial worker state: idle flag, two parseable entries queued. -/
def raceInit : Sys := { queue := [some qjA, some qjB] }

/-- The interleaving that defeats the in-flight flag: both ticks pass the
`inFlight` check (segment `s0`) while the flag is still false, then each
dequeues and starts a run. -/
def raceSched : List Bool := [false, true, false, true, false, true]

/-! Helper lemmas. -/

/-- Whatever `find` returns passed the provider filter. -/
theorem findMatching_provider (prov : String) :
    ∀ ids l, findMatching prov ids = some l → l.provider = prov := by
  intro ids
  induction ids with
  | nil => intro l h; simp [findMatching] at h
  | cons o rest ih =>
    intro l h
    match o with
    | none => exact ih l (by simpa [findMatching] using h)
    | some x =>
      by_cases hx : x.provider = prov
      · have hxl : some x = some l := by simpa [findMatching, hx] using h
        injection hxl with hxl
        exact hxl ▸ hx
      · exact ih l (by simpa [findMatching, hx] using h)

/-- A lease produced by one poll attempt belongs to the target provider. -/
theorem attemptLease_provider (prov : String) (a : LeaseAttempt) (l : LeaseId)
    (h : attemptLease prov a = some l) : l.provider = prov := by
  match a with
  | none => simp [attemptLease] at h
  | some ids => exact findMatching_provider prov ids l (by simpa [attemptLease] using h)

/-- A lease produced by the bounded poll belongs to the target provider. -/
theorem leaseScanFrom_provider (prov : String) (f : Nat → LeaseAttempt) :
    ∀ n i l, (leaseScanFrom prov f i n).1 = some l → l.provider = prov := by
  intro n
  induction n with
  | zero => intro i l h; simp [leaseScanFrom] at h
  | succ n ih =>
    intro i l h
    unfold leaseScanFrom at h
    cases ha : attemptLease prov (f i) with
    | some x =>
      rw [ha] at h
      simp at h
      exact h ▸ attemptLease_provider prov (f i) x ha
    | none =>
      rw [ha] at h
      simp at h
      exact ih (i + 1) l h

/-- The bounded poll reads only the attempts it is given. -/
theorem leaseScanFrom_congr (prov : String) :
    ∀ n (f g : Nat → LeaseAttempt) i, (∀ k, k < n → f (i + k) = g (i + k)) →
      leaseScanFrom prov f i n = leaseScanFrom prov g i n := by
  intro n
  induction n with
  | zero => intro f g i _; rfl
  | succ n ih =>
    intro f g i h
    have h0 : f i = g i := by simpa using h 0 (Nat.succ_pos n)
    have hrest : leaseScanFrom prov f (i + 1) n = leaseScanFrom prov g (i + 1) n := by
      apply ih
      intro k hk
      have := h (k + 1) (Nat.succ_lt_succ hk)
      simpa [Nat.add_assoc, Nat.add_comm, Nat.add_left_comm] using this
    unfold leaseScanFrom
    rw [h0, hrest]

/-! Claim theorems and witnesses. -/

/-- C2: the admission check is deterministic in the probe outcome and
fail-closed: it is available whenever the busy check is disabled or no
probe URL is configured; otherwise it is available exactly when the
decoded body's status field equals "available", and any probe error
(network failure or malformed body) yields unavailable, never available. -/
theorem c2_admission_fail_closed (env : Env) :
    ((env.DISABLE_BUSY_CHECK = true ∨ env.BUSY_CHECK = "") → gpuAvailable env = true) ∧
    (env.DISABLE_BUSY_CHECK = false → env.BUSY_CHECK ≠ "" →
      (gpuAvailable env = true ↔ env.probe = ProbeOutcome.ok (some "available"))) ∧
    (env.DISABLE_BUSY_CHECK = false → env.BUSY_CHECK ≠ "" → env.probe = ProbeOutcome.err →
      gpuAvailable env = false) := by
  refine ⟨?_, ?_, ?_⟩
  · rintro (h | h) <;> simp [gpuAvailable, h]
  · intro h1 h2
    cases hp : env.probe with
    | err => simp [gpuAvailable, h1, h2, hp]
    | ok s => simp [gpuAvailable, h1, h2, hp]
  · intro h1 h2 hp
    simp [gpuAvailable, h1, h2, hp]

/-- Witness for C2: with the busy check enabled and an erroring probe,
the gate reports unavailable. -/
theorem c2_admission_fail_closed_witness : gpuAvailable envProbeErr = false :=
  (c2_admission_fail_closed envProbeErr).2.2 rfl (by decide) rfl

/-- C4: a request whose product is outside the allowed set is answered
400 invalid_product with the queue untouched and an empty effect trace —
no spawn, no probe, no store access. -/
theorem c4_invalid_product_no_side_effects (env : Env) (req : Job) (idem : Option String)
    (queue : List Stored) (h : ALLOWED.contains req.product = false) :
    handlePost env req idem queue = (Resp.invalidProduct, queue, []) ∧
    respCode Resp.invalidProduct = 400 := by
  refine ⟨?_, rfl⟩
  have h' : req.product ∉ ALLOWED := by simpa using h
  simp [handlePost, h']

/-- Witness for C4: the product "bogus" is rejected with no effects. -/
theorem c4_invalid_product_no_side_effects_witness :
    handlePost envDry { product := "bogus" } none [] = (Resp.invalidProduct, [], []) :=
  (c4_invalid_product_no_side_effects envDry { product := "bogus" } none [] (by decide)).1

/-- C9: the queue-clear endpoint responds 401 with the queue unchanged
whenever no token is configured or the supplied token differs from the
configured one (including a missing header), and any non-401 outcome
requires a non-empty configured token exactly matched by the request. -/
theorem c9_admin_clear_denies (ADMIN_TOKEN : String) (t : Option String) (hasRedis : Bool)
    (queue : List Stored) (h : ADMIN_TOKEN = "" ∨ t ≠ some ADMIN_TOKEN) :
    adminQueueClear ADMIN_TOKEN t hasRedis queue = (401, queue) ∧
    (∀ tok2 t2 hr2 q2, (adminQueueClear tok2 t2 hr2 q2).1 ≠ 401 →
      tok2 ≠ "" ∧ t2 = some tok2) := by
  constructor
  · unfold adminQueueClear
    rw [if_pos h]
  · intro tok2 t2 hr2 q2 hne
    by_cases h1 : tok2 = "" ∨ t2 ≠ some tok2
    · unfold adminQueueClear at hne
      rw [if_pos h1] at hne
      simp at hne
    · push_neg at h1
      exact h1

/-- Witness for C9: no configured token, a supplied token — denied, queue
intact. -/
theorem c9_admin_clear_denies_witness :
    adminQueueClear "" (some "x") true [some qjA] = (401, [some qjA]) :=
  (c9_admin_clear_denies "" (some "x") true [some qjA] (Or.inl rfl)).1

/-- C10: a queue whose head entry does not parse: `dequeue` pops and
destroys the entry and yields nothing, and a worker tick that pops it
processes no job that tick (no run, no spawn) while the entry is gone. -/
theorem c10_malformed_entry_destroyed (env : Env) (rest : List Stored)
    (hr : env.hasRedis = true) (he : env.ENABLE_QUEUE = true)
    (hg : gpuAvailable env = true) :
    dequeue env ((none : Stored) :: rest) = (none, rest) ∧
    (processQueueOnce env false ((none : Stored) :: rest)).queue = rest ∧
    (processQueueOnce env false ((none : Stored) :: rest)).ran = none ∧
    (∀ c, Effect.spawn c ∉ (processQueueOnce env false ((none : Stored) :: rest)).effects) := by
  have hd : dequeue env ((none : Stored) :: rest) = (none, rest) := by
    simp [dequeue, hr]
  refine ⟨hd, ?_, ?_, ?_⟩
  · simp [processQueueOnce, he, hg, hd]
  · simp [processQueueOnce, he, hg, hd]
  · intro c
    simp only [processQueueOnce, he, hg, hd, probeEffects, dequeueEffects, hr]
    split_ifs <;> simp

/-- Witness for C10: a single malformed entry is consumed and no job runs. -/
theorem c10_malformed_entry_destroyed_witness :
    (processQueueOnce envWorker false [(none : Stored)]).ran = none ∧
    (processQueueOnce envWorker false [(none : Stored)]).queue = [] :=
  ⟨(c10_malformed_entry_destroyed envWorker [] rfl rfl rfl).2.2.1,
   (c10_malformed_entry_destroyed envWorker [] rfl rfl rfl).2.1⟩

/-- C1 (refuting the claim as stated): an interleaving of two worker
ticks under which two Orchestrator runs are in progress simultaneously.
Both ticks pass the synchronous `inFlight` check of server.js 277 while
the flag is still false (the flag is only set at server.js 283, after the
`gpuAvailable` and `dequeue` awaits, and never re-checked), so each
dequeues its own job and starts `runJob`: afterwards two runs are in
flight (`running = 2`, both ticks suspended inside `runJob` at `s3`). -/
theorem c1_single_flight_violated :
    (runSched envWorker raceInit raceSched).running = 2 ∧
    (runSched envWorker raceInit raceSched).t0.pc = Seg.s3 ∧
    (runSched envWorker raceInit raceSched).t1.pc = Seg.s3 ∧
    (runSched envWorker raceInit raceSched).queue = [] := by
  decide

/-- C5: with the dry-run flag set, a valid job run succeeds with a URI
containing the product name and never spawns the marketplace tool. -/
theorem c5_dry_run_no_executor (env : Env) (job : Job) (hd : env.DRY_RUN = true)
    (_hv : ALLOWED.contains job.product = true) :
    (runJob env job).1 =
      Except.ok { status := "ok", uri := dryRunUri job.product env.now, dry_run := true } ∧
    (∃ a b, dryRunUri job.product env.now = a ++ job.product ++ b) ∧
    (∀ c, Effect.spawn c ∉ (runJob env job).2) := by
  refine ⟨?_, ?_, ?_⟩
  · simp [runJob, hd]
  · refine ⟨"https://demo.indianode.com/job/", "-" ++ toString (env.now % 1000000), ?_⟩
    simp [dryRunUri, String.append_assoc]
  · intro c
    simp only [runJob, hd, if_true, notifyLive]
    split_ifs <;> simp

/-- Witness for C5: dry run of the whisper job. -/
theorem c5_dry_run_no_executor_witness :
    (runJob envDry jobW).1 =
      Except.ok { status := "ok", uri := dryRunUri jobW.product envDry.now,
                  dry_run := true } := by
  exact (c5_dry_run_no_executor envDry jobW rfl (by decide)).1

/-- C3: a valid request arriving while the gate reports unavailable:
queueing disabled gives 409 busy; queueing enabled with a configured
store appends the job and answers 200 queued at the post-insertion queue
length; queueing enabled without a store answers 503. -/
theorem c3_busy_routing (env : Env) (req : Job) (idem : Option String) (queue : List Stored)
    (hv : ALLOWED.contains req.product = true)
    (hb : gpuAvailable env = false) :
    (env.ENABLE_QUEUE = false →
      handlePost env req idem queue = (Resp.busy, queue, probeEffects env) ∧
      respCode Resp.busy = 409) ∧
    (env.ENABLE_QUEUE = true → env.hasRedis = true →
      (handlePost env req idem queue).1 = Resp.queued (queue.length + 1) ∧
      (handlePost env req idem queue).2.1 =
        queue ++ [some { job := req, enqueuedAt := env.now, idem := idem }] ∧
      respCode (Resp.queued (queue.length + 1)) = 200) ∧
    (env.ENABLE_QUEUE = true → env.hasRedis = false →
      (handlePost env req idem queue).1 = Resp.queueUnavailable "queue_not_configured" ∧
      respCode (Resp.queueUnavailable "queue_not_configured") = 503) := by
  have hv' : req.product ∈ ALLOWED := by simpa using hv
  refine ⟨?_, ?_, ?_⟩
  · intro hq
    exact ⟨by simp [handlePost, hv', hb, hq], rfl⟩
  · intro hq hr
    refine ⟨?_, ?_, rfl⟩ <;> simp [handlePost, hv', hb, hq, enqueue, hr]
  · intro hq hr
    refine ⟨?_, rfl⟩
    simp [handlePost, hv', hb, hq, enqueue, hr]

/-- Witness for C3: busy gate, queueing enabled, store on, empty queue —
queued at position 1. -/
theorem c3_busy_routing_witness :
    (handlePost envBusyQ jobW none []).1 = Resp.queued 1 := by
  exact ((c3_busy_routing envBusyQ jobW none [] (by decide) (by decide)).2.1 rfl rfl).1

/-- C6: lease acquisition accepts only leases of the configured target
provider, reads at most the fixed 30-attempt budget at the fixed 4000 ms
interval, and exhausting the budget without a match fails the run with
no_lease_from_provider. -/
theorem c6_lease_filter_and_budget (env : Env) (job : Job) (prov owner raw file : String)
    (hdr : env.DRY_RUN = false) (hp : env.PROVIDER = some prov)
    (hk : env.keysShowFirst = Except.ok owner)
    (hsp : sdlFileFor job.product = some file)
    (hrd : env.readSdl = Except.ok raw)
    (hdc : env.deployCreate = Except.ok ()) :
    ((leaseScan prov (leaseAttemptAt env)).1 = none →
      (runJob env job).1 = Except.error "no_lease_from_provider") ∧
    (∀ l, (leaseScan prov (leaseAttemptAt env)).1 = some l → l.provider = prov) ∧
    (∀ f g : Nat → LeaseAttempt, (∀ i, i < leaseMaxAttempts → f i = g i) →
      leaseScan prov f = leaseScan prov g) ∧
    leaseMaxAttempts = 30 ∧ pollWaitMs = 4000 := by
  refine ⟨?_, ?_, ?_, rfl, rfl⟩
  · intro hnone
    simp [runJob, hdr, hp, ensureAkashKey, hk, sdlFor, hsp, hrd, hdc, hnone]
  · intro l hl
    exact leaseScanFrom_provider prov (leaseAttemptAt env) leaseMaxAttempts 0 l hl
  · intro f g hfg
    exact leaseScanFrom_congr prov leaseMaxAttempts f g 0 (fun k hk2 => by simpa using hfg k hk2)

/-- Witness for C6: thirty empty polls end in no_lease_from_provider. -/
theorem c6_lease_filter_and_budget_witness :
    (runJob envNoLease jobW).1 = Except.error "no_lease_from_provider" := by
  exact (c6_lease_filter_and_budget envNoLease jobW "p1" "akash1owner" "sdl" "whisper.yaml"
    rfl rfl rfl (by decide) rfl rfl).1 (by decide)

/-- C7: when URI polling exhausts its budget, the run still returns a
success result with an empty URI, the exhaustion is only logged
(no_uri_yet), and no customer notification is fired. -/
theorem c7_uri_soft_failure (env : Env) (job : Job) (prov owner raw file : String)
    (l : LeaseId)
    (hdr : env.DRY_RUN = false) (hp : env.PROVIDER = some prov)
    (hk : env.keysShowFirst = Except.ok owner)
    (hsp : sdlFileFor job.product = some file)
    (hrd : env.readSdl = Except.ok raw)
    (hdc : env.deployCreate = Except.ok ())
    (hl : (leaseScan prov (leaseAttemptAt env)).1 = some l)
    (hm : env.sendManifest = Except.ok ())
    (hu : (uriScan (uriAttemptAt env)).1 = "") :
    (runJob env job).1 =
      Except.ok { status := "ok", uri := "", dseq := some (toString (env.now / 1000)),
                  gseq := some l.gseq, oseq := some l.oseq,
                  provider := some l.provider } ∧
    Effect.log "no_uri_yet" ∈ (runJob env job).2 ∧
    (∀ e u, Effect.notify e u ∉ (runJob env job).2) := by
  refine ⟨?_, ?_, ?_⟩
  · simp [runJob, hdr, hp, ensureAkashKey, hk, sdlFor, hsp, hrd, hdc, hl, hm, hu]
  · simp [runJob, hdr, hp, ensureAkashKey, hk, sdlFor, hsp, hrd, hdc, hl, hm, hu]
  · intro e u
    simp [runJob, hdr, hp, ensureAkashKey, hk, sdlFor, hsp, hrd, hdc, hl, hm, hu,
      notifyLive, List.mem_append, List.mem_replicate]

/-- Witness for C7: lease found at once, forty-five empty URI polls —
success with an empty URI. -/
theorem c7_uri_soft_failure_witness :
    (runJob envRun jobW).1 =
      Except.ok { status := "ok", uri := "", dseq := some (toString (envRun.now / 1000)),
                  gseq := some leaseW.gseq, oseq := some leaseW.oseq,
                  provider := some leaseW.provider } := by
  exact (c7_uri_soft_failure envRun jobW "p1" "akash1owner" "sdl" "whisper.yaml" leaseW
    rfl rfl rfl (by decide) rfl rfl (by decide) rfl (by decide)).1

/-- C8: a non-dry-run session whose manifest submission succeeds schedules
exactly one teardown, delayed max(1, minutes) * 60 * 1000 ms — hence at
least minutes * 60 s — after the URI poll; the auto-close callback only
logs close_failed on failure (it returns effects, no result), and the
run's result is a success already fixed before the timer fires. -/
theorem c8_one_teardown (env : Env) (job : Job) (prov owner raw file : String)
    (l : LeaseId)
    (hdr : env.DRY_RUN = false) (hp : env.PROVIDER = some prov)
    (hk : env.keysShowFirst = Except.ok owner)
    (hsp : sdlFileFor job.product = some file)
    (hrd : env.readSdl = Except.ok raw)
    (hdc : env.deployCreate = Except.ok ())
    (hl : (leaseScan prov (leaseAttemptAt env)).1 = some l)
    (hm : env.sendManifest = Except.ok ()) :
    (runJob env job).2.filter isTeardown =
      [Effect.scheduleTeardown ((Nat.max 1 job.minutes) * 60 * 1000)] ∧
    job.minutes * 60 * 1000 ≤ (Nat.max 1 job.minutes) * 60 * 1000 ∧
    autoCloseCallback false = [Effect.spawn deployCloseCmd, Effect.log "close_failed"] ∧
    (runJob env job).1 =
      Except.ok { status := "ok", uri := (uriScan (uriAttemptAt env)).1,
                  dseq := some (toString (env.now / 1000)),
                  gseq := some l.gseq, oseq := some l.oseq,
                  provider := some l.provider } := by
  refine ⟨?_, ?_, rfl, ?_⟩
  · simp only [runJob, hdr, hp, ensureAkashKey, hk, sdlFor, hsp, hrd, hdc, hl, hm,
      notifyLive]
    split_ifs <;>
      simp_all [isTeardown, List.filter_append, List.filter_replicate]
  · have h1 : job.minutes ≤ Nat.max 1 job.minutes := Nat.le_max_right 1 job.minutes
    exact Nat.mul_le_mul_right 1000 (Nat.mul_le_mul_right 60 h1)
  · simp [runJob, hdr, hp, ensureAkashKey, hk, sdlFor, hsp, hrd, hdc, hl, hm]

/-- Witness for C8: the 30-minute whisper job schedules one teardown of
1 800 000 ms. -/
theorem c8_one_teardown_witness :
    (runJob envRun jobW).2.filter isTeardown =
      [Effect.scheduleTeardown ((Nat.max 1 jobW.minutes) * 60 * 1000)] := by
  exact (c8_one_teardown envRun jobW "p1" "akash1owner" "sdl" "whisper.yaml" leaseW
    rfl rfl rfl (by decide) rfl rfl (by decide) rfl).1

end AkashDeployer
